import Mathlib

/-!
# Verification of the ai-health (Arovia Health Desk) front end

Shallow embedding of the symptom-triage web application:
* the data model of `frontend/src/types.ts`,
* the submit handlers of `App.tsx` (`handleTriageSubmit`), `TriageForm.tsx` and
  `Dashboard.tsx`, and of the stand-alone `AroviaHealthDesk` component,
* the rendering logic of the `Results` view (urgency labels, emergency alert,
  facility cards) and of the `AroviaHealthDesk` urgency badge,
* the backend safety rails and facility sorting, which are not part of the
  checked-in sources and are therefore modelled from the spec (README).

HTTP calls are modelled by an environment (`BackendEnv`) describing the
responses, and each handler returns both its final component state and the
list of requests it issued.
-/

/-! ## Data model (frontend/src/types.ts) -/

/-- The severity union type: mild, moderate, severe. -/
inductive Severity where
  | mild | moderate | severe
deriving DecidableEq, Repr

/-- The urgency-level union type: immediate, urgent. -/
inductive UrgencyLevel where
  | immediate | urgent
deriving DecidableEq, Repr

/-- The probability union type: low, medium, high. -/
inductive Probability where
  | low | medium | high
deriving DecidableEq, Repr

/-- The triage-category union type: emergency, urgent, standard. -/
inductive TriageCategory where
  | emergency | urgent | standard
deriving DecidableEq, Repr

/-- The facility-type union type: government, private, ngo, local. -/
inductive FacilityType where
  | government | privateF | ngo | localF
deriving DecidableEq, Repr

/-- The `Symptom` interface of types.ts. -/
structure Symptom where
  name : String
  severity : Severity
  duration : Option String
  associated_symptoms : Option (List String)
deriving DecidableEq, Repr

/-- The `RedFlag` interface of types.ts. -/
structure RedFlag where
  flag_type : String
  description : String
  urgency_level : UrgencyLevel
  action_required : String
deriving DecidableEq, Repr

/-- The `PotentialRisk` interface of types.ts. -/
structure PotentialRisk where
  condition : String
  probability : Probability
  specialty_needed : String
deriving DecidableEq, Repr

/-- The `TriageResult` interface of types.ts.  The urgency score is documented as an
integer on a 1-10 scale, so it is embedded as `Int`. -/
structure TriageResult where
  chief_complaint : String
  symptoms : List Symptom
  urgency_score : Int
  red_flags : List RedFlag
  potential_risks : List PotentialRisk
  recommended_specialty : String
  triage_category : TriageCategory
  emergency_detected : Bool
  action_required : String
  timestamp : String
deriving DecidableEq, Repr

/-- Latitude/longitude pair of `Facility.coordinates`. -/
structure Coordinates where
  latitude : ℚ
  longitude : ℚ
deriving DecidableEq, Repr

/-- The `Facility` interface of types.ts; `distance_km` is embedded as `ℚ`. -/
structure Facility where
  name : String
  address : String
  distance_km : ℚ
  facility_type : FacilityType
  services : List String
  specialty_match : String
  map_link : String
  contact : Option String
  coordinates : Coordinates
deriving DecidableEq, Repr

/-! ## JavaScript string helpers

JS `trim()` is embedded by `jsTrim` (dropping leading and trailing
whitespace characters); JS truthiness of an optional string (`undefined`
and `""` are falsy) and the `s || undefined` idiom are made explicit. -/

/-- JS `String.prototype.trim`: drop leading and trailing whitespace. -/
def jsTrim (s : String) : String :=
  String.mk (((s.data.dropWhile Char.isWhitespace).reverse.dropWhile Char.isWhitespace).reverse)

/-- JS truthiness of a `string | undefined` value: `undefined` and `""` are
falsy, every other string truthy. -/
def jsTruthy : Option String → Bool
  | none => false
  | some s => s ≠ ""

/-- The `location.trim() || undefined` idiom of the submit handlers: the
trimmed string when non-empty, otherwise `undefined`. -/
def trimOrNone (s : String) : Option String :=
  if jsTrim s = "" then none else some (jsTrim s)

/-- The `location || undefined` idiom used when serialising the request
body: an empty string collapses to `undefined` (the key is omitted). -/
def jsOrUndefined : Option String → Option String
  | none => none
  | some s => if s = "" then none else some s

/-! ## App-level state and requests (App.tsx, embedded in i18n.ts bundle) -/

/-- A request the front end can issue to the backend. -/
inductive Request where
  /-- A POST to the triage/text endpoint with JSON body of symptoms and location. -/
  | triageText (symptoms : String) (location : Option String)
  /-- A POST to the facilities endpoint with JSON body of the location. -/
  | facilities (location : String)
deriving DecidableEq, Repr

/-- The backend responses observed by one submission: the `ok` flag and
parsed JSON body of the `/triage/text` response, and likewise for the
`/facilities` response. -/
structure BackendEnv where
  triageOk : Bool
  triageBody : TriageResult
  facilitiesOk : Bool
  facilitiesBody : List Facility
deriving Repr

/-- The `App` component state: `triageResult`, `facilities`, `loading`,
`error`. -/
structure AppState where
  triageResult : Option TriageResult
  facilities : List Facility
  loading : Bool
  error : Option String
deriving DecidableEq, Repr

/-- The `handleTriageSubmit` handler of App.tsx: posts the symptoms (and optional
location) to `/triage/text`; on a non-ok response it throws
"Failed to analyze symptoms", which the catch block stores as the error;
on success it stores the parsed result and, when a location was given,
additionally posts to `/facilities` and stores that list when the response
is ok.  The `finally` block clears `loading`.  Returns the final state and
the requests issued. -/
def handleTriageSubmit (s : AppState) (symptoms : String) (location : Option String)
    (env : BackendEnv) : AppState × List Request :=
  let req := Request.triageText symptoms (jsOrUndefined location)
  if env.triageOk then
    let s1 : AppState :=
      { s with triageResult := some env.triageBody, error := none, loading := false }
    if jsTruthy location then
      let loc := location.getD ""
      if env.facilitiesOk then
        ({ s1 with facilities := env.facilitiesBody }, [req, Request.facilities loc])
      else
        (s1, [req, Request.facilities loc])
    else
      (s1, [req])
  else
    ({ s with error := some "Failed to analyze symptoms", loading := false }, [req])

namespace TriageForm

/-- The `handleSubmit` handler of TriageForm.tsx: submits only when the trimmed
symptom text is non-empty, passing `symptoms.trim()` and
`location.trim() || undefined`; returns `none` when nothing is submitted. -/
def handleSubmit (symptoms location : String) : Option (String × Option String) :=
  if jsTrim symptoms = "" then none
  else some (jsTrim symptoms, trimOrNone location)

end TriageForm

namespace Dashboard

/-- The `handleSubmit` handler of the quick-assessment form in Dashboard.tsx; same
guard and arguments as the TriageForm handler. -/
def handleSubmit (symptoms location : String) : Option (String × Option String) :=
  if jsTrim symptoms = "" then none
  else some (jsTrim symptoms, trimOrNone location)

end Dashboard

/-- A full text-triage submission through the TriageForm: the form-level
guard followed by `handleTriageSubmit` on the trimmed values. -/
def submitTriageForm (s : AppState) (symptoms location : String)
    (env : BackendEnv) : AppState × List Request :=
  match TriageForm.handleSubmit symptoms location with
  | none => (s, [])
  | some (sym, loc) => handleTriageSubmit s sym loc env

/-! ## AroviaHealthDesk component (src/unnamed/part_000) -/

/-- A request issued by the `AroviaHealthDesk` component.  The coordinate
fields of its payload are kept as the raw input strings (the component
applies `parseFloat` when both are truthy). -/
inductive DeskRequest where
  /-- A POST to the triage/text endpoint with symptoms, location and coordinates. -/
  | triageText (symptoms : String) (location : Option String)
      (coordinates : Option (String × String))
deriving DecidableEq, Repr

/-- The `AroviaHealthDesk` state touched by `handleTextTriage`. -/
structure DeskState where
  result : Option TriageResult
  error : Option String
  loading : Bool
deriving DecidableEq, Repr

/-- The `handleTextTriage` handler of AroviaHealthDesk: when the trimmed symptom text
is empty it sets the error "Please enter your symptoms" and returns
without any request; otherwise it clears error and result, posts the
(untrimmed) symptoms with `location || undefined` and the coordinates when
both strings are truthy, and stores the parsed result on success or the
error "Failed to analyze symptoms" on a non-ok response. -/
def handleTextTriage (st : DeskState) (textSymptoms location lat long : String)
    (env : BackendEnv) : DeskState × List DeskRequest :=
  if jsTrim textSymptoms = "" then
    ({ st with error := some "Please enter your symptoms" }, [])
  else
    let coords : Option (String × String) :=
      if lat ≠ "" ∧ long ≠ "" then some (lat, long) else none
    let req := DeskRequest.triageText textSymptoms (jsOrUndefined (some location)) coords
    if env.triageOk then
      ({ result := some env.triageBody, error := none, loading := false }, [req])
    else
      ({ result := none, error := some "Failed to analyze symptoms", loading := false }, [req])

/-! ## Results view (Dashboard.tsx bundle) and urgency badges -/

/-- The `getUrgencyColor` helper of the Results view. -/
def getUrgencyColor (score : Int) : String :=
  if score ≥ 9 then "text-red-600 bg-red-100"
  else if score ≥ 7 then "text-yellow-600 bg-yellow-100"
  else "text-green-600 bg-green-100"

/-- The `getUrgencyText` helper of the Results view. -/
def getUrgencyText (score : Int) : String :=
  if score ≥ 9 then "IMMEDIATE"
  else if score ≥ 7 then "URGENT"
  else "STANDARD"

/-- The urgency-badge class of `renderTriageResult` in AroviaHealthDesk. -/
def deskUrgencyBadge (score : Int) : String :=
  if score ≥ 8 then "bg-red-100 text-red-800"
  else if score ≥ 5 then "bg-yellow-100 text-yellow-800"
  else "bg-green-100 text-green-800"

/-- The three severity colour classes used by both renderers. -/
inductive SeverityColor where
  | red | yellow | green
deriving DecidableEq, Repr

/-- The severity colour named by a Tailwind class string: both renderers
use exactly one red, one yellow and one green class string. -/
def severityOf (c : String) : SeverityColor :=
  if c = "text-red-600 bg-red-100" ∨ c = "bg-red-100 text-red-800" then .red
  else if c = "text-yellow-600 bg-yellow-100" ∨ c = "bg-yellow-100 text-yellow-800" then .yellow
  else .green

/-- The Results view renders the `EMERGENCY DETECTED` / `CALL 108` alert
card exactly when `triageResult.emergency_detected` holds. -/
def rendersEmergencyAlert (r : TriageResult) : Bool :=
  r.emergency_detected

/-- The facility cards displayed by the Results view: the whole section is
guarded by `facilities.length > 0` and the cards come from
`facilities.slice(0, 3)`. -/
def renderedFacilityCards (fs : List Facility) : List Facility :=
  if fs.length > 0 then fs.take 3 else []

/-! ## Backend safety rails, modelled from the spec

The backend (`agents/triage_agent.py`, `utils/facility_matcher.py`) is not
among the checked-in sources; only the front end and the README are.  The
parts of it that the claims depend on are modelled from the spec and the
README verbatim. -/

/-- Modelled from the spec: the static emergency keyword table
`EMERGENCY_KEYWORDS` of the missing `agents/triage_agent.py`, transcribed
from the Medical Safety Rails section of the README (category, phrase list). -/
def EMERGENCY_KEYWORDS : List (String × List String) :=
  [("cardiac",
    ["chest pain", "heart attack", "crushing chest pressure",
     "pain radiating to arm/jaw", "severe palpitations"]),
   ("neurological",
    ["stroke", "face drooping", "arm weakness", "slurred speech",
     "sudden severe headache", "loss of consciousness", "seizure"]),
   ("respiratory",
    ["can\x27t breathe", "choking", "severe shortness of breath",
     "blue lips", "gasping for air"]),
   ("trauma",
    ["severe bleeding", "head injury", "broken bone visible",
     "penetrating wound", "unconscious after injury"]),
   ("mental_health",
    ["suicide", "want to die", "self-harm", "kill myself"]),
   ("other",
    ["severe abdominal pain", "pregnancy + bleeding",
     "high fever in infant", "allergic reaction + swelling"])]

/-- Substring scan: does the haystack contain the needle as a contiguous
substring? -/
def containsSub (needle : List Char) : List Char → Bool
  | [] => needle.isEmpty
  | c :: t => needle.isPrefixOf (c :: t) || containsSub needle t

/-- Modelled from the spec: the keyword scan of the missing backend - the
symptom text is scanned for every phrase of every category of
`EMERGENCY_KEYWORDS`. -/
def detectEmergency (text : String) : Bool :=
  EMERGENCY_KEYWORDS.any (fun cat => cat.2.any (fun kw => containsSub kw.data text.data))

/-- Outcome of the backend safety rail: the (possibly overridden) triage
result, and whether immediate escalation to emergency services (108) was
triggered. -/
structure TriageOutcome where
  result : TriageResult
  escalateTo108 : Bool
deriving DecidableEq, Repr

/-- Modelled from the spec: the README rule
`If ANY keyword detected -> Urgency = 10, Immediate escalation to 108`
applied to the LLM result of the missing `agents/triage_agent.py`. -/
def applyEmergencyOverride (text : String) (r : TriageResult) : TriageOutcome :=
  if detectEmergency text then
    { result := { r with urgency_score := 10, emergency_detected := true },
      escalateTo108 := true }
  else
    { result := r, escalateTo108 := false }

/-- Modelled from the spec: the glossary defines a red flag as "a symptom
or symptom combination treated as an automatic emergency escalation
trigger", so the missing backend marks any result carrying red flags as an
emergency before returning it. -/
def finalizeTriage (r : TriageResult) : TriageResult :=
  if r.red_flags.isEmpty then r else { r with emergency_detected := true }

/-- Comparison used by the facility sorting: by `distance_km`. -/
def distLE (a b : Facility) : Prop :=
  a.distance_km ≤ b.distance_km

instance : DecidableRel distLE := fun a b =>
  inferInstanceAs (Decidable (a.distance_km ≤ b.distance_km))

/-- Insert a facility into a distance-sorted list, keeping it sorted. -/
def insertByDist (f : Facility) : List Facility → List Facility
  | [] => [f]
  | g :: t => if distLE f g then f :: g :: t else g :: insertByDist f t

/-- Modelled from the spec: the facility search of the missing
`utils/facility_matcher.py` returns its facilities with "straightforward
distance sorting" (the Facilities view labels the list "Sorted by
distance" and stars the first entry as Recommended). -/
def sortFacilities : List Facility → List Facility
  | [] => []
  | f :: t => insertByDist f (sortFacilities t)

/-! ## Concrete sample values used by witnesses and counterexamples -/

/-- A concrete non-emergency triage result. -/
def sampleResult : TriageResult :=
  { chief_complaint := "fever and cough"
    symptoms := []
    urgency_score := 5
    red_flags := []
    potential_risks := []
    recommended_specialty := "General Medicine"
    triage_category := .standard
    emergency_detected := false
    action_required := "Visit Primary Health Center within 24 hours"
    timestamp := "2025-01-01T00:00:00Z" }

/-- A concrete red flag. -/
def sampleRedFlag : RedFlag :=
  { flag_type := "cardiac"
    description := "Chest pain with radiation"
    urgency_level := .immediate
    action_required := "Call 108" }

/-- A triage result carrying a red flag. -/
def flaggedResult : TriageResult :=
  { sampleResult with red_flags := [sampleRedFlag], urgency_score := 10 }

/-- A concrete facility at the given distance. -/
def sampleFacility (n : String) (d : ℚ) : Facility :=
  { name := n
    address := "Main Road"
    distance_km := d
    facility_type := .government
    services := ["General Medicine"]
    specialty_match := "General"
    map_link := "https://www.openstreetmap.org"
    contact := none
    coordinates := { latitude := 17, longitude := 78 } }

/-- A two-element facility list that is out of distance order. -/
def demoFacilities : List Facility :=
  [sampleFacility "Apollo Hospital" 5, sampleFacility "City Clinic" 2]

/-- A backend environment whose responses are all ok. -/
def sampleEnvOk : BackendEnv :=
  { triageOk := true
    triageBody := sampleResult
    facilitiesOk := true
    facilitiesBody := [sampleFacility "City Clinic" 2] }

/-- A backend environment whose triage response is not ok. -/
def sampleEnvFail : BackendEnv :=
  { triageOk := false
    triageBody := sampleResult
    facilitiesOk := false
    facilitiesBody := [] }

/-- The initial `App` state. -/
def initialAppState : AppState :=
  { triageResult := none, facilities := [], loading := false, error := none }

/-- An `App` state already holding a result and a facility list. -/
def populatedAppState : AppState :=
  { triageResult := some sampleResult
    facilities := [sampleFacility "City Clinic" 2]
    loading := false
    error := none }

/-- The idle `AroviaHealthDesk` state. -/
def idleDeskState : DeskState :=
  { result := none, error := none, loading := false }

/-- The cardiac entry of the emergency keyword table. -/
def cardiacEntry : String × List String :=
  ("cardiac",
   ["chest pain", "heart attack", "crushing chest pressure",
    "pain radiating to arm/jaw", "severe palpitations"])

/-! ## Helper lemmas -/

theorem isPrefixOf_append_self (n rest : List Char) : n.isPrefixOf (n ++ rest) = true := by
  induction n with
  | nil => simp [List.isPrefixOf]
  | cons c t ih => simp [List.isPrefixOf, ih]

theorem containsSub_of_leading {kw hay : List Char}
    (h : kw.isPrefixOf hay = true) : containsSub kw hay = true := by
  cases hay with
  | nil =>
      cases kw with
      | nil => rfl
      | cons a b => simp [List.isPrefixOf] at h
  | cons c t => simp [containsSub, h]

theorem containsSub_of_append (kw l rest : List Char) :
    containsSub kw (l ++ (kw ++ rest)) = true := by
  induction l with
  | nil => exact containsSub_of_leading (isPrefixOf_append_self kw rest)
  | cons c l ih => simp [containsSub, ih]

theorem detectEmergency_of_keyword {text : String} {cat : String × List String} {kw : String}
    (hcat : cat ∈ EMERGENCY_KEYWORDS) (hkw : kw ∈ cat.2)
    (h : containsSub kw.data text.data = true) : detectEmergency text = true := by
  simp only [detectEmergency, List.any_eq_true]
  exact ⟨cat, hcat, kw, hkw, h⟩

theorem jsOrUndefined_trimOrNone (s : String) :
    jsOrUndefined (trimOrNone s) = trimOrNone s := by
  by_cases h : jsTrim s = "" <;> simp [trimOrNone, jsOrUndefined, h]

theorem jsTruthy_trimOrNone (s : String) :
    jsTruthy (trimOrNone s) = true ↔ jsTrim s ≠ "" := by
  by_cases h : jsTrim s = "" <;> simp [trimOrNone, jsTruthy, h]

theorem submitTriageForm_eq (s : AppState) (symptoms location : String)
    (env : BackendEnv) (h : jsTrim symptoms ≠ "") :
    submitTriageForm s symptoms location env =
      handleTriageSubmit s (jsTrim symptoms) (trimOrNone location) env := by
  unfold submitTriageForm TriageForm.handleSubmit
  rw [if_neg h]

theorem distLE_total (a b : Facility) (h : ¬ distLE a b) : distLE b a :=
  le_of_not_le h

theorem distLE_trans {a b c : Facility} (h1 : distLE a b) (h2 : distLE b c) : distLE a c :=
  le_trans h1 h2

theorem mem_insertByDist (f : Facility) (l : List Facility) (g : Facility) :
    g ∈ insertByDist f l ↔ g = f ∨ g ∈ l := by
  induction l with
  | nil => simp [insertByDist]
  | cons a t ih =>
      by_cases hd : distLE f a
      · simp only [insertByDist, if_pos hd, List.mem_cons]
      · simp only [insertByDist, if_neg hd, List.mem_cons, ih]
        tauto

theorem pairwise_insertByDist (f : Facility) {l : List Facility}
    (hl : l.Pairwise distLE) : (insertByDist f l).Pairwise distLE := by
  induction l with
  | nil => simp [insertByDist]
  | cons a t ih =>
      rcases List.pairwise_cons.mp hl with ⟨ha, ht⟩
      by_cases hd : distLE f a
      · simp only [insertByDist, if_pos hd]
        refine List.pairwise_cons.mpr ⟨?_, hl⟩
        intro x hx
        rcases List.mem_cons.mp hx with rfl | hx'
        · exact hd
        · exact distLE_trans hd (ha x hx')
      · simp only [insertByDist, if_neg hd]
        refine List.pairwise_cons.mpr ⟨?_, ih ht⟩
        intro x hx
        rcases (mem_insertByDist f t x).mp hx with hxf | hx'
        · rw [hxf]; exact distLE_total f a hd
        · exact ha x hx'

theorem pairwise_sortFacilities (fs : List Facility) :
    (sortFacilities fs).Pairwise distLE := by
  induction fs with
  | nil => simp [sortFacilities]
  | cons f t ih =>
      simp only [sortFacilities]
      exact pairwise_insertByDist f ih

theorem mem_sortFacilities (fs : List Facility) (g : Facility) :
    g ∈ sortFacilities fs ↔ g ∈ fs := by
  induction fs with
  | nil => simp [sortFacilities]
  | cons f t ih => simp [sortFacilities, mem_insertByDist, ih]

/-! ## Claims -/

/-- C1: for every symptom input whose text contains at least one phrase of
the static emergency keyword table `EMERGENCY_KEYWORDS` (any phrase of any
category), the triage result produced for that input has `urgency_score`
equal to 10 and triggers immediate escalation to emergency services
(108). -/
theorem C1_emergency_keyword_override (text : String) (r : TriageResult)
    (h : ∃ cat ∈ EMERGENCY_KEYWORDS, ∃ kw ∈ cat.2,
          ∃ l rest : List Char, text.data = l ++ (kw.data ++ rest)) :
    (applyEmergencyOverride text r).result.urgency_score = 10 ∧
    (applyEmergencyOverride text r).escalateTo108 = true := by
  obtain ⟨cat, hcat, kw, hkw, l, rest, htext⟩ := h
  have hc : containsSub kw.data text.data = true := by
    rw [htext]; exact containsSub_of_append kw.data l rest
  have hd : detectEmergency text = true := detectEmergency_of_keyword hcat hkw hc
  simp [applyEmergencyOverride, hd]

/-- Witness for C1 at the concrete input "I have chest pain now" and the
keyword "chest pain" of the cardiac category. -/
theorem C1_emergency_keyword_override_witness :
    (applyEmergencyOverride "I have chest pain now" sampleResult).result.urgency_score = 10 ∧
    (applyEmergencyOverride "I have chest pain now" sampleResult).escalateTo108 = true := by
  refine C1_emergency_keyword_override "I have chest pain now" sampleResult
    ⟨cardiacEntry, by decide, "chest pain", by decide,
     "I have ".data, " now".data, by decide⟩

/-- C2: for every triage result whose `red_flags` list is non-empty, the
result is an automatic emergency escalation: `emergency_detected` is true
and the Results view renders the EMERGENCY DETECTED alert (call 108). -/
theorem C2_red_flags_force_emergency_alert (r : TriageResult)
    (h : (finalizeTriage r).red_flags ≠ []) :
    (finalizeTriage r).emergency_detected = true ∧
    rendersEmergencyAlert (finalizeTriage r) = true := by
  by_cases he : r.red_flags.isEmpty
  · exfalso
    apply h
    simp [finalizeTriage, he, List.isEmpty_iff.mp he]
  · simp [finalizeTriage, he, rendersEmergencyAlert]

/-- Witness for C2 at a concrete result carrying one cardiac red flag. -/
theorem C2_red_flags_force_emergency_alert_witness :
    (finalizeTriage flaggedResult).emergency_detected = true ∧
    rendersEmergencyAlert (finalizeTriage flaggedResult) = true :=
  C2_red_flags_force_emergency_alert flaggedResult (by decide)

/-- C3: the urgency category of the Results view is a function of the
urgency score alone: a score of 9 or more is labelled IMMEDIATE (red), a
score of 7 or 8 URGENT (yellow), and any lower score STANDARD (green). -/
theorem C3_urgency_label_thresholds (s : Int) :
    (9 ≤ s → getUrgencyText s = "IMMEDIATE" ∧
      getUrgencyColor s = "text-red-600 bg-red-100") ∧
    (s = 7 ∨ s = 8 → getUrgencyText s = "URGENT" ∧
      getUrgencyColor s = "text-yellow-600 bg-yellow-100") ∧
    (s < 7 → getUrgencyText s = "STANDARD" ∧
      getUrgencyColor s = "text-green-600 bg-green-100") := by
  refine ⟨fun h => ?_, fun h => ?_, fun h => ?_⟩
  · rw [getUrgencyText, getUrgencyColor, if_pos h, if_pos h]
    exact ⟨rfl, rfl⟩
  · have h9 : ¬ (s ≥ 9) := by omega
    have h7 : s ≥ 7 := by omega
    rw [getUrgencyText, getUrgencyColor, if_neg h9, if_neg h9, if_pos h7, if_pos h7]
    exact ⟨rfl, rfl⟩
  · have h9 : ¬ (s ≥ 9) := by omega
    have h7 : ¬ (s ≥ 7) := by omega
    rw [getUrgencyText, getUrgencyColor, if_neg h9, if_neg h9, if_neg h7, if_neg h7]
    exact ⟨rfl, rfl⟩

/-- Witness for C3 at the scores 9, 8 and 3. -/
theorem C3_urgency_label_thresholds_witness :
    getUrgencyText 9 = "IMMEDIATE" ∧ getUrgencyText 8 = "URGENT" ∧
    getUrgencyText 3 = "STANDARD" :=
  ⟨((C3_urgency_label_thresholds 9).1 (by norm_num)).1,
   ((C3_urgency_label_thresholds 8).2.1 (Or.inr rfl)).1,
   ((C3_urgency_label_thresholds 3).2.2 (by norm_num)).1⟩

/-- C4, counterexample: at urgency score 8 the Results view
(`getUrgencyColor`, thresholds 9/7) picks the yellow severity class while
the AroviaHealthDesk badge (`deskUrgencyBadge`, thresholds 8/5) picks the
red one, so the two renderers do not assign the same severity class to
every score from 1 to 10. -/
theorem C4_renderers_disagree_at_eight :
    severityOf (getUrgencyColor 8) = SeverityColor.yellow ∧
    severityOf (deskUrgencyBadge 8) = SeverityColor.red ∧
    severityOf (getUrgencyColor 8) ≠ severityOf (deskUrgencyBadge 8) := by
  decide

/-- C4, amended: for every urgency score from 1 to 10 the Results view and
the AroviaHealthDesk badge assign the same severity class exactly for the
scores other than 5, 6 and 8 (at 8 the badge is already red but the
Results view still yellow; at 5 and 6 the badge is already yellow but the
Results view still green). -/
theorem C4_renderers_agree_iff (s : Int) (h1 : 1 ≤ s) (h10 : s ≤ 10) :
    severityOf (getUrgencyColor s) = severityOf (deskUrgencyBadge s) ↔
      s ≠ 5 ∧ s ≠ 6 ∧ s ≠ 8 := by
  interval_cases s <;> decide

/-- Witness for the amended C4 at score 7, where both renderers pick the
yellow class. -/
theorem C4_renderers_agree_iff_witness :
    severityOf (getUrgencyColor 7) = severityOf (deskUrgencyBadge 7) ↔
      (7 : Int) ≠ 5 ∧ (7 : Int) ≠ 6 ∧ (7 : Int) ≠ 8 :=
  C4_renderers_agree_iff 7 (by norm_num) (by norm_num)

/-- C5: every facilities list produced by the facility search is sorted by
distance: `distance_km` is non-decreasing along the displayed order, and
the first rendered entry (marked Recommended) is a nearest facility. -/
theorem C5_facilities_sorted_by_distance (fs : List Facility) :
    (sortFacilities fs).Pairwise distLE ∧
    ∀ h, (sortFacilities fs).head? = some h →
      ∀ f ∈ fs, h.distance_km ≤ f.distance_km := by
  refine ⟨pairwise_sortFacilities fs, ?_⟩
  intro h hh f hf
  have hf' : f ∈ sortFacilities fs := (mem_sortFacilities fs f).mpr hf
  cases hs : sortFacilities fs with
  | nil => rw [hs] at hh; simp at hh
  | cons a t =>
      rw [hs] at hh
      have ha : a = h := by simpa using hh
      rw [hs] at hf'
      rcases List.mem_cons.mp hf' with hfa | hft
      · rw [hfa, ← ha]
      · have hp := pairwise_sortFacilities fs
        rw [hs] at hp
        have := (List.pairwise_cons.mp hp).1 f hft
        rw [← ha]
        exact this

/-- Witness for C5 on a concrete out-of-order list: the sort brings the
2 km City Clinic to the front and its distance is at most that of the 5 km
Apollo Hospital. -/
theorem C5_facilities_sorted_by_distance_witness :
    (sortFacilities demoFacilities).head? = some (sampleFacility "City Clinic" 2) ∧
    (sampleFacility "City Clinic" 2).distance_km ≤
      (sampleFacility "Apollo Hospital" 5).distance_km := by
  have hh : (sortFacilities demoFacilities).head? =
      some (sampleFacility "City Clinic" 2) := by decide
  exact ⟨hh, (C5_facilities_sorted_by_distance demoFacilities).2
    (sampleFacility "City Clinic" 2) hh (sampleFacility "Apollo Hospital" 5) (by decide)⟩

/-- C6: for every submission whose trimmed symptom text is non-empty, the
front end forwards exactly the trimmed symptoms and the optional location
to the backend `/triage/text` endpoint, and on a successful response
stores the parsed response as the triage result. -/
theorem C6_submit_posts_trimmed_symptoms (s : AppState) (symptoms location : String)
    (env : BackendEnv) (h : jsTrim symptoms ≠ "") :
    (submitTriageForm s symptoms location env).2.head? =
      some (Request.triageText (jsTrim symptoms) (trimOrNone location)) ∧
    (env.triageOk = true →
      (submitTriageForm s symptoms location env).1.triageResult = some env.triageBody) := by
  rw [submitTriageForm_eq s symptoms location env h]
  unfold handleTriageSubmit
  rw [jsOrUndefined_trimOrNone]
  by_cases hok : env.triageOk
  · by_cases hl : jsTruthy (trimOrNone location)
    · by_cases hf : env.facilitiesOk <;> simp [hok, hl, hf]
    · simp [hok, hl]
  · simp [hok]

/-- Witness for C6 at the symptoms " fever " (trimmed to "fever"), the
location "Mumbai" and an all-ok backend. -/
theorem C6_submit_posts_trimmed_symptoms_witness :
    (submitTriageForm initialAppState " fever " "Mumbai" sampleEnvOk).2.head? =
      some (Request.triageText (jsTrim " fever ") (trimOrNone "Mumbai")) ∧
    (submitTriageForm initialAppState " fever " "Mumbai" sampleEnvOk).1.triageResult =
      some sampleEnvOk.triageBody := by
  have h := C6_submit_posts_trimmed_symptoms initialAppState " fever " "Mumbai"
    sampleEnvOk (by decide)
  exact ⟨h.1, h.2 rfl⟩

/-- C7, counterexample: a submission with the location "Mumbai" provided
whose triage response is not ok issues no `/facilities` request at all -
the request list is exactly the one `/triage/text` request - so
"requested if and only if a location was provided" fails. -/
theorem C7_no_facilities_request_on_failed_triage :
    trimOrNone "Mumbai" = some "Mumbai" ∧
    (submitTriageForm initialAppState "chest pain" "Mumbai" sampleEnvFail).2 =
      [Request.triageText "chest pain" (some "Mumbai")] := by
  decide

/-- C7, amended: for every text-triage submission the `/facilities`
endpoint is requested if and only if a location was provided and the
`/triage/text` response was ok; when no location is given, the stored
facilities list is left unchanged. -/
theorem C7_facilities_request_iff (s : AppState) (symptoms location : String)
    (env : BackendEnv) (h : jsTrim symptoms ≠ "") :
    ((∃ l, Request.facilities l ∈ (submitTriageForm s symptoms location env).2) ↔
      env.triageOk = true ∧ jsTrim location ≠ "") ∧
    (jsTrim location = "" →
      (submitTriageForm s symptoms location env).1.facilities = s.facilities) := by
  rw [submitTriageForm_eq s symptoms location env h]
  unfold handleTriageSubmit
  by_cases hok : env.triageOk
  · by_cases hl : jsTruthy (trimOrNone location)
    · have hl' : jsTrim location ≠ "" := (jsTruthy_trimOrNone location).mp hl
      by_cases hf : env.facilitiesOk <;>
        simp [hok, hl, hf, hl']
    · have hl' : ¬ jsTrim location ≠ "" := fun hc =>
        hl ((jsTruthy_trimOrNone location).mpr hc)
      simp [hok, hl, hl']
  · by_cases hl : jsTrim location ≠ "" <;> simp [hok, hl]

/-- Witness for the amended C7 at a submission with no location: no
`/facilities` request is issued and the stored facilities are unchanged. -/
theorem C7_facilities_request_iff_witness :
    ((∃ l, Request.facilities l ∈
        (submitTriageForm initialAppState "fever" "" sampleEnvOk).2) ↔
      sampleEnvOk.triageOk = true ∧ jsTrim "" ≠ "") ∧
    (jsTrim "" = "" →
      (submitTriageForm initialAppState "fever" "" sampleEnvOk).1.facilities =
        initialAppState.facilities) :=
  C7_facilities_request_iff initialAppState "fever" "" sampleEnvOk (by decide)

/-- C8: for every triage request whose HTTP response is not ok, the front
end surfaces the error "Failed to analyze symptoms", performs no retry
(exactly one request is issued), and leaves the previously stored triage
result and facilities list unchanged; only the error and loading state
change. -/
theorem C8_error_preserves_state (s : AppState) (symptoms : String)
    (location : Option String) (env : BackendEnv) (h : env.triageOk = false) :
    (handleTriageSubmit s symptoms location env).1.error =
      some "Failed to analyze symptoms" ∧
    (handleTriageSubmit s symptoms location env).2 =
      [Request.triageText symptoms (jsOrUndefined location)] ∧
    (handleTriageSubmit s symptoms location env).1.triageResult = s.triageResult ∧
    (handleTriageSubmit s symptoms location env).1.facilities = s.facilities ∧
    (handleTriageSubmit s symptoms location env).1.loading = false := by
  simp [handleTriageSubmit, h]

/-- Witness for C8 on a populated state and a failing backend: the stored
result and facilities survive the error. -/
theorem C8_error_preserves_state_witness :
    (handleTriageSubmit populatedAppState "chest pain" (some "Mumbai") sampleEnvFail).1.error =
      some "Failed to analyze symptoms" ∧
    (handleTriageSubmit populatedAppState "chest pain" (some "Mumbai") sampleEnvFail).2 =
      [Request.triageText "chest pain" (jsOrUndefined (some "Mumbai"))] ∧
    (handleTriageSubmit populatedAppState "chest pain" (some "Mumbai")
        sampleEnvFail).1.triageResult = populatedAppState.triageResult ∧
    (handleTriageSubmit populatedAppState "chest pain" (some "Mumbai")
        sampleEnvFail).1.facilities = populatedAppState.facilities ∧
    (handleTriageSubmit populatedAppState "chest pain" (some "Mumbai")
        sampleEnvFail).1.loading = false :=
  C8_error_preserves_state populatedAppState "chest pain" (some "Mumbai") sampleEnvFail rfl

/-- C9: the Results view renders at most the first three facilities of the
stored list: for every facilities list, the rendered cards are exactly the
first `min(length, 3)` entries, in list order. -/
theorem C9_results_renders_first_three (fs : List Facility) :
    renderedFacilityCards fs = fs.take 3 ∧
    (renderedFacilityCards fs).length = min fs.length 3 := by
  have h1 : renderedFacilityCards fs = fs.take 3 := by
    unfold renderedFacilityCards
    by_cases h : fs.length > 0
    · rw [if_pos h]
    · rw [if_neg h]
      have : fs = [] := List.length_eq_zero.mp (by omega)
      rw [this]
      rfl
  refine ⟨h1, ?_⟩
  rw [h1, List.length_take]
  exact Nat.min_comm 3 fs.length

/-- C10: no triage request is ever issued for empty input: for every
symptom text that is empty or whitespace-only, the TriageForm and
Dashboard submit handlers return without calling the backend, and the
AroviaHealthDesk `handleTextTriage` issues no request and sets the error
"Please enter your symptoms". -/
theorem C10_empty_symptoms_no_request (symptoms location lat long : String)
    (st : DeskState) (s : AppState) (env : BackendEnv)
    (h : jsTrim symptoms = "") :
    TriageForm.handleSubmit symptoms location = none ∧
    Dashboard.handleSubmit symptoms location = none ∧
    (submitTriageForm s symptoms location env).2 = [] ∧
    (handleTextTriage st symptoms location lat long env).2 = [] ∧
    (handleTextTriage st symptoms location lat long env).1.error =
      some "Please enter your symptoms" := by
  unfold submitTriageForm TriageForm.handleSubmit Dashboard.handleSubmit handleTextTriage
  simp [h]

/-- Witness for C10 at the whitespace-only input "   ". -/
theorem C10_empty_symptoms_no_request_witness :
    TriageForm.handleSubmit "   " "Mumbai" = none ∧
    Dashboard.handleSubmit "   " "Mumbai" = none ∧
    (submitTriageForm initialAppState "   " "Mumbai" sampleEnvOk).2 = [] ∧
    (handleTextTriage idleDeskState "   " "Mumbai" "" "" sampleEnvOk).2 = [] ∧
    (handleTextTriage idleDeskState "   " "Mumbai" "" "" sampleEnvOk).1.error =
      some "Please enter your symptoms" :=
  C10_empty_symptoms_no_request "   " "Mumbai" "" "" idleDeskState initialAppState
    sampleEnvOk (by decide)
